import Mathlib

/-!
# Verification of NHAssist against its design specification

A shallow embedding of the NHAssist sources (`priceid.py`, `nhmon.py`,
`tmux.py`, `const.py`) together with theorems settling the specification
claims about price deduction, label abbreviation, the monitor state, the
curses box parser and persistence handling.

Modelling conventions:
* Python ints are `Int`/`Nat` (arbitrary precision, as in Python).
* The float arithmetic in the price formulas and sort keys is modelled by
  exact fraction arithmetic (`Frac`), with Python's `round` implemented as
  round-half-to-even on the exact value; for the magnitudes occurring in
  the game this coincides with CPython's correctly rounded binary floats.
* Python dicts are association lists in insertion order; `str` helpers
  (`split`, `replace`, `capitalize`, `rstrip`, `strip`, `ljust`, ordering
  by code point, `sorted` stability) are re-implemented below so that all
  definitions evaluate inside the kernel.
* A raised Python exception is modelled as `none` of an `Option` result.
-/

/-- An exact fraction `num / den`; the smart constructors keep `den`
positive, so comparisons by cross-multiplication are sound. Used to model
Python arithmetic involving `/` exactly. -/
structure Frac where
  num : Int
  den : Int
deriving DecidableEq

def Frac.ofInt (n : Int) : Frac := ⟨n, 1⟩

/-- Fraction division, keeping the denominator positive. (A zero divisor
would be a Python `ZeroDivisionError`; it is never reached here.) -/
def Frac.div (x y : Frac) : Frac :=
  let n := x.num * y.den
  let d := x.den * y.num
  if d < 0 then ⟨-n, -d⟩ else ⟨n, d⟩

/-- `x ≤ y` for fractions with positive denominators. -/
def Frac.le (x y : Frac) : Bool :=
  decide (x.num * y.den ≤ y.num * x.den)

/-- Python's `round`: round half to even, on the exact value of `x`
(`x.den > 0`). -/
def pyRound (x : Frac) : Int :=
  let q := x.num.fdiv x.den
  let r := x.num - q * x.den
  if 2 * r < x.den then q
  else if x.den < 2 * r then q + 1
  else if q % 2 = 0 then q else q + 1

/-- Split a character list at every character satisfying `p`, keeping empty
pieces (Python `str.split(sep)` semantics for a one-character separator). -/
def splitCharsAux (p : Char → Bool) : List Char → List Char → List (List Char)
  | [], acc => [acc.reverse]
  | c :: cs, acc =>
    if p c then acc.reverse :: splitCharsAux p cs []
    else splitCharsAux p cs (c :: acc)

/-- Python `data.split('\n')`. -/
def pySplitLines (s : String) : List String :=
  (splitCharsAux (fun c => c == '\n') s.toList []).map String.mk

/-- Python `str.split()` with no argument: split on whitespace runs,
discarding empty pieces. -/
def pySplitWS (s : String) : List String :=
  ((splitCharsAux (fun c => c.isWhitespace) s.toList []).map String.mk).filter
    (fun w => w ≠ "")

/-- Python `str.capitalize`: first character uppercased, the rest
lowercased (identical for the ASCII data used here). -/
def pyCapitalize (s : String) : String :=
  match s.toList with
  | [] => ""
  | c :: cs => String.mk (c.toUpper :: cs.map Char.toLower)

/-- Worker for `pyReplace`; the fuel is the length of the text, enough since
every step consumes at least one character. -/
def pyReplaceAux (pat rep : List Char) : Nat → List Char → List Char
  | 0, s => s
  | _ + 1, [] => []
  | fuel + 1, c :: cs =>
    if !pat.isEmpty && pat.isPrefixOf (c :: cs) then
      rep ++ pyReplaceAux pat rep fuel ((c :: cs).drop pat.length)
    else
      c :: pyReplaceAux pat rep fuel cs

/-- Python `str.replace`: replace all non-overlapping occurrences, scanning
left to right. -/
def pyReplace (s pat rep : String) : String :=
  String.mk (pyReplaceAux pat.toList rep.toList s.toList.length s.toList)

/-- Python whitespace characters (the ASCII ones). -/
def pyIsSpace (c : Char) : Bool :=
  c == ' ' || c == '\t' || c == '\n' || c == '\r' || c == '\x0b' || c == '\x0c'

/-- Python `str.rstrip()`. -/
def pyRstrip (s : String) : String :=
  String.mk ((s.toList.reverse.dropWhile pyIsSpace).reverse)

/-- Python `str.strip()`. -/
def pyStrip (s : String) : String :=
  String.mk (((s.toList.dropWhile pyIsSpace).reverse.dropWhile pyIsSpace).reverse)

/-- Python `str.ljust(w)` with spaces. -/
def pyLjust (s : String) (w : Nat) : String :=
  s ++ String.mk (List.replicate (w - s.length) ' ')

/-- Insert `a` after every element that is `le`-below it; folding this over a
list gives a stable ascending sort, matching Python's `sorted`. -/
def pyInsert (le : α → α → Bool) (a : α) : List α → List α
  | [] => [a]
  | b :: bs => if le b a then b :: pyInsert le a bs else a :: b :: bs

/-- Python `sorted` with a `key`-induced comparison `le` (stable,
ascending). -/
def pySorted (le : α → α → Bool) (l : List α) : List α :=
  l.foldl (fun acc a => pyInsert le a acc) []

/-- Code-point lexicographic `<` on strings (Python string comparison). -/
def pyStrLtList : List Char → List Char → Bool
  | [], [] => false
  | [], _ :: _ => true
  | _ :: _, [] => false
  | a :: as, b :: bs =>
    if a.toNat < b.toNat then true
    else if a.toNat = b.toNat then pyStrLtList as bs
    else false

/-- Code-point `≤` on strings. -/
def pyStrLe (s t : String) : Bool := ! pyStrLtList t.toList s.toList

/-- Python dict lookup `d.get(k)` for a string-keyed dict kept as an
association list in insertion order. -/
def dictFind (d : List (String × α)) (k : String) : Option α :=
  (d.find? (fun kv => kv.fst == k)).map (·.snd)

/-- Python dict assignment `d[k] = v`: overwrite in place, or append a new
key at the end. -/
def dictSet (d : List (String × α)) (k : String) (v : α) : List (String × α) :=
  if (d.find? (fun kv => kv.fst == k)).isSome then
    d.map (fun kv => if kv.fst == k then (k, v) else kv)
  else d ++ [(k, v)]
/-- const.TOURIST_LOW_LEVEL: status-line ranks of a low-level Tourist. -/
def TOURIST_LOW_LEVEL : List String :=
  ["Rambler", "Sightseer", "Excursionist", "Peregrinator", "Peregrinatrix", "Traveler"]

/-- const.COST_TABLES: category name to (base price to item identities), in source order. -/
def COST_TABLES : List (String × List (Int × List String)) := [
  ("boots", [
    (8, ["elven boots", "kicking boots"]),
    (30, ["fumble boots", "levitation boots"]),
    (50, ["jumping boots", "speed boots", "water walking boots"])]),
  ("cloak", [
    (40, ["leather cloak", "orcish cloak"]),
    (50, ["cloak of displacement", "cloak of protection"]),
    (60, ["cloak of invisibility", "cloak of magic resistance"])]),
  ("helm", [
    (10, ["helmet"]),
    (50, ["helm of brilliance", "helm of opposite alignment", "helm of telepathy", "helm of caution"])]),
  ("gloves", [
    (8, ["leather gloves"]),
    (50, ["gauntlets of dexterity", "gauntlets of fumbling", "gauntlets of power"])]),
  ("scroll", [
    (20, ["scroll of identify"]),
    (50, ["scroll of light"]),
    (60, ["scroll of enchant weapon"]),
    (80, ["scroll of enchant armor", "scroll of remove curse"]),
    (100, ["scroll of confuse monster", "scroll of destroy armor", "scroll of fire", "scroll of food detection", "scroll of gold detection", "scroll of magic mapping", "scroll of scare monster", "scroll of teleportation"]),
    (200, ["scroll of amnesia", "scroll of create monster", "scroll of earth", "scroll of taming"]),
    (300, ["scroll of charging", "scroll of genocide", "scroll of punishment", "scroll of stinking cloud"])]),
  ("potion", [
    (20, ["potion of healing"]),
    (50, ["potion of booze", "potion of fruit juice", "potion of see invisible", "potion of sickness"]),
    (100, ["potion of confusion", "potion of extra healing", "potion of hallucination", "potion of restore ability", "potion of sleeping"]),
    (150, ["potion of blindness", "potion of gain energy", "potion of invisibility", "potion of monster detection", "potion of object detection"]),
    (200, ["potion of enlightenment", "potion of full healing", "potion of levitation", "potion of polymorph", "potion of speed"]),
    (250, ["potion of acid", "potion of oil"]),
    (300, ["potion of gain ability", "potion of gain level", "potion of paralysis"])]),
  ("ring", [
    (100, ["ring of adornment", "ring of hunger", "ring of protection", "ring of protection from shape changers", "ring of stealth", "ring of sustain ability", "ring of warning"]),
    (150, ["ring of aggravate monster", "ring of cold resistance", "ring of gain constitution", "ring of gain strength", "ring of increase accuracy", "ring of increase damage", "ring of invisibility", "ring of poison resistance", "ring of see invisible", "ring of shock resistance"]),
    (200, ["ring of fire resistance", "ring of free action", "ring of levitation", "ring of regeneration", "ring of searching", "ring of slow digestion", "ring of teleportation"]),
    (300, ["ring of conflict", "ring of polymorph", "ring of polymorph control", "ring of teleport control"])]),
  ("wand", [
    (100, ["wand of light", "wand of nothing"]),
    (150, ["wand of digging", "wand of enlightenment", "wand of locking", "wand of magic missile", "wand of make invisible", "wand of opening", "wand of probing", "wand of secret door detection", "wand of slow monster", "wand of speed monster", "wand of striking", "wand of undead turning"]),
    (175, ["wand of cold", "wand of fire", "wand of lightning", "wand of sleep"]),
    (200, ["wand of cancellation", "wand of create monster", "wand of polymorph", "wand of teleportation"]),
    (500, ["wand of death", "wand of wishing"])]),
  ("spellbook", [
    (100, ["spellbook of force bolt", "spellbook of protection", "spellbook of detect monsters", "spellbook of light", "spellbook of sleep", "spellbook of jumping", "spellbook of healing", "spellbook of knock"]),
    (200, ["spellbook of magic missile", "spellbook of drain life", "spellbook of create monster", "spellbook of detect food", "spellbook of confuse monster", "spellbook of slow monster", "spellbook of cure blindness", "spellbook of wizard lock", "spellbook of chain lightning"]),
    (300, ["spellbook of remove curse", "spellbook of clairvoyance", "spellbook of detect unseen", "spellbook of identify", "spellbook of cause fear", "spellbook of charm monster", "spellbook of haste self", "spellbook of cure sickness", "spellbook of extra healing", "spellbook of stone to flesh"]),
    (400, ["spellbook of cone of cold", "spellbook of fireball", "spellbook of detect treasure", "spellbook of invisibility", "spellbook of levitation", "spellbook of restore ability"]),
    (500, ["spellbook of magic mapping", "spellbook of dig"]),
    (600, ["spellbook of create familiar", "spellbook of turn undead", "spellbook of teleport away", "spellbook of polymorph"]),
    (700, ["spellbook of finger of death", "spellbook of cancellation"])])
]

/-- const.ABBREV_DICT: four progressively shorter hand-picked forms per identity. -/
def ABBREV_DICT : List (String × List String) := [
  ("confusion", ["Confuse", "Confu", "Conf", "Cnf"]),
  ("extra healing", ["ExtraHeal", "XtraHeal", "ExHeal", "XHeal"]),
  ("hallucination", ["Hallucinate", "Hallucin", "Hallu", "Hal"]),
  ("restore ability", ["RestoreAbil", "RestAbil", "RstAbil", "RstAbl"]),
  ("sleeping", ["Sleeping", "Sleep", "Sleep", "Slp"]),
  ("blindness", ["Blindness", "Blindness", "Blind", "Blnd"]),
  ("gain energy", ["GainEnergy", "GainEnergy", "GainEn", "+Ener"]),
  ("invisibility", ["Invisibility", "Invisibility", "Invis", "Inv"]),
  ("monster detection", ["MonsterDetect", "MonstDetect", "MonDetect", "MonDet"]),
  ("object detection", ["ObjectDetect", "ObjectDetect", "ObjDetect", "ObjDet"]),
  ("confuse monster", ["ConfMonster", "ConfMon", "ConfMon", "ConfMn"]),
  ("destroy armor", ["DestArmor", "DestArm", "DstArm", "DstAr"]),
  ("fire", ["Fire", "Fire", "Fire", "Fir"]),
  ("food detection", ["FoodDetect", "FoodDet", "FoDet", "FDet"]),
  ("gold detection", ["GoldDetect", "GoldDet", "GoDet", "GDet"]),
  ("magic mapping", ["MagicMap", "MgcMap", "MMap", "Map"]),
  ("scare monster", ["ScareMonst", "ScareMon", "ScarMon", "ScrMn"]),
  ("teleportation", ["Teleport", "Telept", "Tele", "Tele"]),
  ("fire resistance", ["FireResist", "FireRes", "FireR", "FirR"]),
  ("free action", ["FreeAction", "FreeAction", "FreeAct", "FreAct"]),
  ("levitation", ["Levitate", "Levit", "Levit", "Levi"]),
  ("regeneration", ["Regenerate", "Regen", "Regen", "Reg"]),
  ("searching", ["Search", "Search", "Srch", "Src"]),
  ("slow digestion", ["SlowDigest", "SlowDigest", "SlwDigest", "SlwDgst"]),
  ("force bolt", ["ForceBolt", "ForceBolt", "ForcBolt", "FBolt"]),
  ("protection", ["Protect", "Protect", "Prot", "Prot"]),
  ("detect monsters", ["DetectMonst", "DetectMonst", "DetMonst", "DetMon"]),
  ("light", ["Light", "Light", "Ligt", "Lgt"]),
  ("sleep", ["Sleep", "Sleep", "Sleep", "Slp"]),
  ("jumping", ["Jump", "Jump", "Jump", "Jmp"]),
  ("healing", ["Heal", "Heal", "Heal", "Heal"]),
  ("knock", ["Knock", "Knock", "Knock", "Knk"]),
  ("cone of cold", ["ConeCold", "ConeCold", "ConeCold", "CnCold"]),
  ("fireball", ["Fireball", "Fireball", "FirBall", "FirBal"]),
  ("detect treasure", ["DetectTreasure", "DetTreasure", "DetTreasr", "DetTrsr"]),
  ("adornment", ["Adornmt", "Adorn", "Adorn", "Adrn"]),
  ("hunger", ["Hunger", "Hunger", "Hungr", "Hngr"]),
  ("protection from shape changers", ["ProtectShapeChg", "ProtShape", "ProtShap", "ProtShp"]),
  ("stealth", ["Stealth", "Stealth", "Steal", "Stl"]),
  ("sustain ability", ["SustainAbil", "SustAbil", "SustAbil", "SusAbil"]),
  ("warning", ["Warning", "Warning", "Warn", "Wrn"]),
  ("aggravate monster", ["AggravMonster", "AggravMonst", "AggrMonst", "AggrMon"]),
  ("cold resistance", ["ColdResist", "ColdRes", "ColdRs", "ColdR"]),
  ("gain constitution", ["GainConstit", "GainConst", "GainCon", "+Con"]),
  ("gain strength", ["GainStren", "GainStr", "GainStr", "+Str"]),
  ("increase accuracy", ["IncrAccuracy", "IncrAccu", "+Accu", "+Acc"]),
  ("increase damage", ["IncrDamage", "IncrDamg", "+Damg", "+Dmg"]),
  ("poison resistance", ["PoisonResist", "PoisonRes", "PoisRes", "PoisR"]),
  ("see invisible", ["SeeInvis", "SeeInvis", "SeeInvis", "SeeInvis"]),
  ("shock resistance", ["ShockResist", "ShockRes", "ShkRes", "ShkR"]),
  ("digging", ["Digging", "Dig", "Dig", "Dig"]),
  ("enlightenment", ["Enlight", "Enlight", "Enlig", "Enl"]),
  ("locking", ["Locking", "Lock", "Lock", "Lok"]),
  ("magic missile", ["MagicMisl", "MagicMisl", "MgcMisl", "MMisl"]),
  ("make invisible", ["MkInvisible", "MkInvis", "MkInvis", "MkInv"]),
  ("opening", ["Open", "Open", "Open", "Opn"]),
  ("probing", ["Probe", "Probe", "Prob", "Prob"]),
  ("secret door detection", ["SecretDoorDet", "SecDoorDet", "SecDoor", "SecDr"]),
  ("slow monster", ["SlowMonst", "SlowMon", "SlwMon", "SlwMn"]),
  ("speed monster", ["SpeedMonst", "SpeedMon", "SpdMon", "SpdMn"]),
  ("striking", ["Striking", "Strike", "Strik", "Str"]),
  ("undead turning", ["UndeadTurn", "UndTurn", "UTurn", "Turn"]),
  ("drain life", ["DrnLife", "DrnLife", "DrLife", "DrLife"]),
  ("create monster", ["CreateMonst", "CreatMonst", "CrMonst", "CrMon"]),
  ("detect food", ["DetectFood", "DetectFood", "DetFood", "DetFood"]),
  ("cure blindness", ["CureBlind", "CureBlind", "CurBlind", "CurBlind"]),
  ("wizard lock", ["WizLock", "Lock", "Lock", "Lok"]),
  ("chain lightning", ["ChainLight", "ChnLight", "ChnLtng", "ChLtng"]),
  ("remove curse", ["RemCurse", "RmCurse", "RmCurs", "RmCur"]),
  ("clairvoyance", ["Clairvoy", "Clair", "Clair", "Clair"]),
  ("detect unseen", ["DetUnseen", "DetUnseen", "DetUns", "DetUns"]),
  ("identify", ["Ident", "Ident", "ID", "ID"]),
  ("cause fear", ["CausFear", "CausFear", "CFear", "Fear"]),
  ("charm monster", ["CharmMonst", "CharmMons", "ChmMon", "ChmMn"]),
  ("haste self", ["HasteSelf", "HasteS", "Haste", "Hast"]),
  ("cure sickness", ["CureSickness", "CureSick", "CureSick", "CurSick"]),
  ("stone to flesh", ["Stone2Flesh", "StoneFlesh", "StnFlesh", "StFlesh"])
]

/-- const.RANDOM_APPEARANCES: item kind to its possible randomized appearances, in source order. -/
def RANDOM_APPEARANCES : List (String × List String) := [
  ("scroll", [
    "ZELGO MER",
    "JUYED AWK YACC",
    "NR 9",
    "XIXAXA XOXAXA XUXAXA",
    "PRATYAVAYAH",
    "DAIYEN FOOELS",
    "LEP GEX VEN ZEA",
    "PRIRUTSENIE",
    "ELBIB YLOH",
    "VERR YED HORRE",
    "VENZAR BORGAVVE",
    "THARR",
    "YUM YUM",
    "KERNOD WEL",
    "ELAM EBOW",
    "DUAM XNAHT",
    "ANDOVA BEGARIN",
    "KIRJE",
    "VE FORBRYDERNE",
    "HACKEM MUCHE",
    "VELOX NEB",
    "FOOBIE BLETCH",
    "TEMOV",
    "GARVEN DEH",
    "READ ME",
    "ETAOIN SHRDLU",
    "LOREM IPSUM",
    "FNORD",
    "KO BATE",
    "ABRA KA DABRA",
    "ASHPD SODALG",
    "MAPIRO MAHAMA DIROMAT",
    "GNIK SISI VLE",
    "HAPAX LEGOMENON",
    "EIRIS SAZUN IDISI",
    "PHOL ENDE WODAN",
    "GHOTI",
    "ZLORFIK",
    "VAS CORP BET MANI",
    "STRC PRST SKRZ KRK",
    "XOR OTA"]),
  ("potion", [
    "ruby",
    "pink",
    "orange",
    "yellow",
    "emerald",
    "dark green",
    "cyan",
    "sky blue",
    "brilliant blue",
    "magenta",
    "purple-red",
    "puce",
    "milky",
    "swirly",
    "bubbly",
    "smoky",
    "cloudy",
    "effervescent",
    "black",
    "golden",
    "brown",
    "fizzy",
    "dark",
    "white",
    "murky"]),
  ("spellbook", [
    "parchment",
    "vellum",
    "ragged",
    "dog eared",
    "mottled",
    "stained",
    "cloth",
    "leather",
    "white",
    "pink",
    "red",
    "orange",
    "yellow",
    "velvet",
    "light green",
    "dark green",
    "turquoise",
    "cyan",
    "light blue",
    "dark blue",
    "indigo",
    "magenta",
    "purple",
    "violet",
    "tan",
    "plaid",
    "light brown",
    "dark brown",
    "gray",
    "wrinkled",
    "dusty",
    "bronze",
    "copper",
    "silver",
    "gold",
    "glittering",
    "shining",
    "dull",
    "thin",
    "thick",
    "checkered"]),
  ("ring", [
    "pearl",
    "iron",
    "twisted",
    "steel",
    "wire",
    "engagement",
    "shiny",
    "bronze",
    "brass",
    "copper",
    "silver",
    "gold",
    "wooden",
    "granite",
    "opal",
    "clay",
    "coral",
    "black onyx",
    "moonstone",
    "tiger eye",
    "jade",
    "agate",
    "topaz",
    "sapphire",
    "ruby",
    "diamond",
    "ivory",
    "emerald"]),
  ("amulet", [
    "circular",
    "spherical",
    "oval",
    "triangular",
    "pyramidal",
    "square",
    "concave",
    "hexagonal",
    "octagonal"]),
  ("wand", [
    "aluminum",
    "balsa",
    "brass",
    "copper",
    "crystal",
    "curved",
    "ebony",
    "forked",
    "glass",
    "hexagonal",
    "iridium",
    "iron",
    "jeweled",
    "long",
    "maple",
    "marble",
    "oak",
    "pine",
    "platinum",
    "runed",
    "short",
    "silver",
    "spiked",
    "steel",
    "tin",
    "uranium",
    "zinc"]),
  ("helmet", [
    "plumed",
    "etched",
    "crested",
    "visored"]),
  ("cloak", [
    "tattered cape",
    "ornamental cope",
    "opera cloak",
    "piece of cloth"]),
  ("gloves", [
    "old",
    "padded",
    "riding",
    "fencing"]),
  ("boots", [
    "mud",
    "snow",
    "riding",
    "buckled",
    "hiking",
    "combat",
    "jungle"])
]
/-- priceid.get_charisma_multiplier. The float constants are modelled by the
exact fractions they denote; the elif chain is exhaustive over the integers
(the initial `mul = 1.0` is always overwritten). -/
def get_charisma_multiplier (charisma : Int) : Frac :=
  if charisma ≤ 5 then ⟨2, 1⟩
  else if charisma ≤ 7 then ⟨3, 2⟩
  else if charisma ≤ 10 then ⟨4, 3⟩
  else if charisma ≤ 15 then ⟨1, 1⟩
  else if charisma ≤ 17 then ⟨3, 4⟩
  else if charisma ≤ 18 then ⟨2, 3⟩
  else ⟨1, 2⟩

/-- priceid.guess_base_cost_buying. -/
def guess_base_cost_buying (price : Nat) (charisma : Int) (sucker : Option Bool) :
    List Int :=
  let uncharismated := (Frac.ofInt price).div (get_charisma_multiplier charisma)
  let candidates := [pyRound uncharismated,
                     pyRound (uncharismated.div ⟨4, 3⟩),
                     pyRound (uncharismated.div ⟨16, 9⟩)]
  match sucker with
  | none => candidates
  | some true => candidates.drop 1    -- candidates[1:3]
  | some false => candidates.take 2   -- candidates[0:2]

/-- priceid.guess_base_cost_selling. The two source expressions are
`nearest * round(price * multiplier / nearest)` and
`nearest * round(price * multiplier * 4 / 3 / nearest)`, with Python's
left-to-right evaluation of the divisions. -/
def guess_base_cost_selling (price : Nat) (sucker : Bool) : List Int :=
  if price = 1 then [2, 2]
  else
    let multiplier : Nat := if sucker then 3 else 2
    let nearest : Nat := if price ≥ 5 then 5 else 2
    [(nearest : Int) * pyRound ((Frac.ofInt (price * multiplier)).div (Frac.ofInt nearest)),
     (nearest : Int) *
       pyRound (((Frac.ofInt (price * multiplier * 4)).div (Frac.ofInt 3)).div
         (Frac.ofInt nearest))]

/-- The `types` tuple of priceid.erase_types, in source order. -/
def TYPE_SUBSTRINGS : List String :=
  [" boots", " cloak", "cloak of ", "helm of ", " gloves", "gauntlets of ",
   "scroll of ", "potion of ", "ring of ", "wand of ", "spellbook of "]

/-- priceid.erase_types: strip every type substring from each item name. -/
def erase_types (item_list : List String) : List String :=
  item_list.map (fun item =>
    TYPE_SUBSTRINGS.foldl (fun it substr => pyReplace it substr "") item)

/-- The step-0 form of the dictionary resize in priceid.abbreviate_items:
inter-word spaces removed, each word capitalized. -/
def step0_form (item : String) : String :=
  String.join ((pySplitWS item).map pyCapitalize)

/-- The form one item takes at step `i` (0–4) of the dictionary resize in
priceid.abbreviate_items: step 0 is `step0_form`; steps 1–4 use column
`i - 1` of ABBREV_DICT when the item has an entry (every entry has four
columns, so the `getD` default is never used) and the item itself
otherwise. -/
def dict_step_form (i : Nat) (item : String) : String :=
  if i = 0 then step0_form item
  else
    match dictFind ABBREV_DICT item with
    | some short_forms => short_forms.getD (i - 1) ""
    | none => item

/-- The `items` list built by step `i` of the dictionary resize. -/
def dict_step_items (item_list : List String) (i : Nat) : List String :=
  item_list.map (dict_step_form i)

/-- The `no_short` flag after the inner loop of dictionary-resize step `i`:
it starts as `i != 0` and is cleared when some item has a dictionary
entry. -/
def no_short_at (item_list : List String) (i : Nat) : Bool :=
  i != 0 && item_list.all (fun item => (dictFind ABBREV_DICT item).isNone)

/-- How the `for i in range(5)` dictionary-resize loop of abbreviate_items
ends: an immediate return (step 0 fit), a break for fine-tuning
(`min_step ≥ 1` fit), or a fall-through to the generic resize (either the
`no_short` break or loop exhaustion, i.e. `min_step = -1`), carrying the
value the `result` variable holds at that point. -/
inductive DictResizeOutcome where
  | done (result : String)
  | refine (min_step : Nat) (items : List String) (result : String)
  | fallback (result : String)
deriving DecidableEq

/-- The dictionary-resize loop of priceid.abbreviate_items; `result` is the
last value assigned to the `result` variable (initially the trivial join),
`i` the loop counter and the fuel starts at 5. -/
def dict_resize_loop (item_list : List String) (target_length : Nat)
    (result : String) : Nat → Nat → DictResizeOutcome
  | 0, _ => .fallback result
  | fuel + 1, i =>
    if no_short_at item_list i then .fallback result
    else
      let items := dict_step_items item_list i
      let result2 := String.intercalate "/" items
      if result2.length ≤ target_length then
        if i = 0 then .done result2 else .refine i items result2
      else dict_resize_loop item_list target_length result2 fuel (i + 1)

/-- The `alternative` (one step less abbreviated form) considered by the
fine-tuning phase of abbreviate_items for one item. -/
def fine_tune_alternative (min_step : Nat) (item : String) : String :=
  if min_step = 1 then step0_form item
  else
    match dictFind ABBREV_DICT item with
    | some short_forms => short_forms.getD (min_step - 2) ""
    | none => item

/-- The fine-tuning loop of abbreviate_items over the ratio-sorted
`(item, short)` pairs, threading the leftover character budget. -/
def fine_tune_go (min_step : Nat) : List (String × String) → Int → List String
  | [], _ => []
  | (item, short) :: rest, budget =>
    let alternative := fine_tune_alternative min_step item
    if short = alternative then short :: fine_tune_go min_step rest budget
    else
      let budget_diff : Int := (alternative.length : Int) - (short.length : Int)
      if budget < budget_diff then short :: fine_tune_go min_step rest budget
      else alternative :: fine_tune_go min_step rest (budget - budget_diff)

/-- The fine-tuning sort key comparison: `len(item) / len(short)`,
ascending (the `short` strings are never empty in the reachable calls, so
the denominators are positive). -/
def ratio_le (a b : String × String) : Bool :=
  Frac.le ⟨a.1.length, a.2.length⟩ ⟨b.1.length, b.2.length⟩

/-- The word lists (split, capitalized) of the fallback generic resize. -/
def generic_resize_words (item_list : List String) : List (List String) :=
  item_list.map (fun item => (pySplitWS item).map pyCapitalize)

/-- `ceil(a / b)` for `b > 0` (Python `math.ceil` of the exact ratio). -/
def ceilDiv (a b : Nat) : Nat := (a + b - 1) / b

/-- One attempt of the generic resize: every word truncated to
`ceil(wordsize / wordCount)` characters, words concatenated, items joined
with slashes. -/
def generic_resize_join (items : List (List String)) (wordsize : Nat) : String :=
  String.intercalate "/" (items.map (fun itemwords =>
    String.join (itemwords.map (fun word =>
      word.take (ceilDiv wordsize itemwords.length)))))

/-- The `for wordsize in range(max_wordlen, 0, -1)` loop of the generic
resize; when `max_wordlen = 0` the loop body never runs and the stale
`result` is returned. -/
def generic_resize_loop (items : List (List String)) (target_length : Nat)
    (result : String) : Nat → String
  | 0 => result
  | wordsize + 1 =>
    let result2 := generic_resize_join items (wordsize + 1)
    if result2.length ≤ target_length || wordsize = 0 then result2
    else generic_resize_loop items target_length result2 wordsize

/-- priceid.abbreviate_items. -/
def abbreviate_items (item_list0 : List String) (target_length : Nat) : String :=
  let item_list := erase_types item_list0
  let result := String.intercalate "/" item_list
  if result.length ≤ target_length then result
  else
    match dict_resize_loop item_list target_length result 5 0 with
    | .done r => r
    | .refine min_step items result2 =>
      let budget : Int := (target_length : Int) - (result2.length : Int)
      let sorted_pairs := pySorted ratio_le (item_list.zip items)
      let final_list := fine_tune_go min_step sorted_pairs budget
      String.intercalate "/" (pySorted pyStrLe final_list)
    | .fallback stale =>
      let items := generic_resize_words item_list
      let max_wordlen := (items.flatMap id).foldl (fun m w => max m w.length) 0
      generic_resize_loop items target_length stale max_wordlen

/-- priceid.full_random_item_name. -/
def full_random_item_name (kind appearance : String) : String :=
  if kind = "scroll" then "scroll labeled " ++ appearance
  else if kind = "cloak" then appearance
  else appearance ++ " " ++ kind

/-- priceid.lookup_item: the first (kind, appearance) in table order whose
full name equals `item`. The source returns a pair of Optionals that are
either both set or both None; this is modelled as one `Option`. -/
def lookup_item (item : String) : Option (String × String) :=
  (RANDOM_APPEARANCES.flatMap (fun ka => ka.2.map (fun app => (ka.1, app)))).find?
    (fun ka => full_random_item_name ka.1 ka.2 == item)

/-- `const.COST_TABLES[kind]` as an Option; `none` is a Python KeyError. -/
def costTableFor (kind : String) : Option (List (Int × List String)) :=
  dictFind COST_TABLES kind

/-- Python `n in table` for an inner price table. -/
def priceTableHas (table : List (Int × List String)) (n : Int) : Bool :=
  table.any (fun kv => kv.1 == n)

/-- Python `n in COST_TABLES`: a key test of an int against the dict whose
keys are the category-name strings; `int == str` is always False in
Python, so no key ever matches. -/
def int_in_cost_tables (_ : Int) : Bool :=
  COST_TABLES.any (fun _ => false)

/-- priceid.find_price_candidates; `none` models the KeyError raised for a
kind absent from COST_TABLES (the candidate price list is never empty, so
the `COST_TABLES[kind]` lookup in the loop body always executes). -/
def find_price_candidates (price : Nat) (kind : String) (charisma : Int)
    (sucker : Option Bool) (buying : Bool) : Option (List String) :=
  let possible_prices :=
    if buying then guess_base_cost_buying price charisma sucker
    else guess_base_cost_selling price (sucker.getD false)
  match costTableFor kind with
  | none => none
  | some table =>
    some (possible_prices.foldl (fun candidates opt =>
      if priceTableHas table opt then
        candidates ++ (((table.find? (fun kv => kv.1 == opt)).map (·.2)).getD [])
      else candidates) [])

/-- priceid.is_shk_greedy; the outer Option models the KeyError on
`COST_TABLES[kind]`. Note that the source tests `possible_prices[0]`
for membership in COST_TABLES itself (whose keys are category names), not
in a price table. -/
def is_shk_greedy (price : Nat) (kind : String) (sucker : Option Bool) :
    Option (Option Bool) :=
  let possible_prices := guess_base_cost_selling price (sucker.getD false)
  match costTableFor kind with
  | none => none
  | some table =>
    if priceTableHas table (possible_prices.getD 1 0) then
      if ! int_in_cost_tables (possible_prices.getD 0 0) then some (some true)
      else some none
    else if ! int_in_cost_tables (possible_prices.getD 0 0) then some none
    else some (some false)

/-- nhmon.PriceIdentifiedItem: one record of price-identification
knowledge. -/
structure PriceIdentifiedItem where
  short_name : String
  candidates : List String
  item_called : Bool
deriving DecidableEq

/-- The mutable game-knowledge state of nhmon.NHMonitor (the fields the
claims are about; the tmux handle and logging carry no game state).
`tourist : Option Bool` models the Python attribute with `none` standing
for Python `None`. -/
structure MonState where
  price_id : List (String × PriceIdentifiedItem)
  known_items : List (String × String)
  charisma : Int
  xplevel : Int
  sucker : Bool
  tourist : Option Bool
  turn : Option Nat
  aligned_turnlimit : Bool
  turnlimit : Nat
  stop_on_turn : Nat
  max_abbrev_length : Nat
  persistence_file : Option String
  dirty : Bool
deriving DecidableEq

/-- NHMonitor.__init__ (without the optional persistence_load call): the
game state starts empty, `sucker`/`tourist` start False, the turn is
unknown and `stop_on_turn` is 0. -/
def initState (aligned_turnlimit : Bool) (turnlimit max_abbrev_length : Nat)
    (persistence_file : Option String) : MonState :=
  { price_id := [], known_items := [], charisma := 0, xplevel := 0,
    sucker := false, tourist := some false, turn := none,
    aligned_turnlimit := aligned_turnlimit, turnlimit := turnlimit,
    stop_on_turn := 0, max_abbrev_length := max_abbrev_length,
    persistence_file := persistence_file, dirty := false }

/-- NHMonitor.mark_state_dirty. -/
def mark_state_dirty (st : MonState) : MonState := { st with dirty := true }

/-- NHMonitor.set_charisma (logging dropped). -/
def set_charisma (st : MonState) (charisma : Int) : MonState :=
  if st.charisma ≠ charisma then
    mark_state_dirty { st with charisma := charisma }
  else st

/-- NHMonitor.set_xplevel (logging dropped). -/
def set_xplevel (st : MonState) (xplevel : Int) : MonState :=
  if st.xplevel ≠ xplevel then
    mark_state_dirty { st with xplevel := xplevel }
  else st

/-- NHMonitor.set_tourist (logging dropped): flags mark the state dirty only
when the tourist flag is being set. -/
def set_tourist (st : MonState) (state : Bool) : MonState :=
  if state then mark_state_dirty { st with tourist := some true }
  else { st with tourist := some false }

/-- NHMonitor.set_sucker (logging and transient messages dropped). -/
def set_sucker (st : MonState) (state : Bool) : MonState :=
  let st1 := if !st.sucker && state then mark_state_dirty st else st
  let st2 := if st.sucker && !state then mark_state_dirty st1 else st1
  { st2 with sucker := state }

/-- Python truthiness of the tourist attribute (`None` and `False` are
falsy). -/
def pyTruthy (b : Option Bool) : Bool := b.getD false

/-- NHMonitor.check_sucker: a (truthy) tourist is a sucker exactly while
the experience level is below 15. -/
def check_sucker (st : MonState) : MonState :=
  if pyTruthy st.tourist then set_sucker st (decide (st.xplevel < 15)) else st

/-- The STATUS_RE branch of TtyMonitor.find_stats, given the `rank` and
`charisma` fields of a successfully matched status line (the regex itself
is the parser and is not modelled). -/
def find_stats_status (st : MonState) (rank : String) (charisma : Int) :
    MonState :=
  let st1 := set_charisma st charisma
  let st2 :=
    if st1.tourist.isNone then
      if TOURIST_LOW_LEVEL.contains rank then set_tourist st1 true else st1
    else st1
  check_sucker st2

/-- The stop_on_turn computation of NHMonitor.set_turn: on the first
successful turn parse while `self.turn is None` and the turn limit is
truthy (non-zero), either align up to the next multiple of the limit or
add the limit; in every other case `stop_on_turn` is unchanged. -/
def set_turn_stop_on_turn (st : MonState) (turn : Nat) : Nat :=
  if st.turn.isNone then
    if st.turnlimit ≠ 0 then
      if st.aligned_turnlimit then st.turnlimit * (turn / st.turnlimit + 1)
      else turn + st.turnlimit
    else st.stop_on_turn
  else st.stop_on_turn

/-- Python `set(a) == set(b)`: equality as unordered element sets. -/
def sameElems (a b : List String) : Bool :=
  a.all (fun x => b.contains x) && b.all (fun x => a.contains x)

/-- NHMonitor.learn_price_id (transient messages and logging dropped): a
unique candidate is recorded in known_items; the price_id record for the
item is created, or replaced when the candidate set materially changed. -/
def learn_price_id (st : MonState) (candidates : List String)
    (item appearance : String) : MonState :=
  let pair :=
    if candidates.length = 1 then
      (candidates.getD 0 "",
       mark_state_dirty
         { st with known_items :=
             dictSet st.known_items (candidates.getD 0 "") appearance })
    else (abbreviate_items candidates st.max_abbrev_length, st)
  let short_name := pair.1
  let st1 := pair.2
  match dictFind st1.price_id item with
  | none =>
    mark_state_dirty
      { st1 with price_id :=
          dictSet st1.price_id item ⟨short_name, candidates, false⟩ }
  | some old =>
    if !sameElems candidates old.candidates then
      mark_state_dirty
        { st1 with price_id :=
            dictSet st1.price_id item ⟨short_name, candidates, false⟩ }
    else st1

/-- NHMonitor.identify_purchase (logging dropped); `none` models a raised
exception (the KeyError from the cost-table lookup for a kind COST_TABLES
does not know). -/
def identify_purchase (st : MonState) (item : String) (price : Nat)
    (buying : Bool) : Option (MonState × Bool) :=
  match lookup_item item with
  | none => some (st, false)
  | some (kind, appearance) =>
    match find_price_candidates price kind st.charisma (some st.sucker) buying with
    | none => none
    | some cs =>
      let candidates := cs.filter (fun x => (dictFind st.known_items x).isNone)
      if candidates.isEmpty then some (st, false)
      else some (learn_price_id st candidates item appearance, true)

/-- TtyMonitor.dispatch_price_id (keystroke side effects dropped): naming a
price-identified item flips its item_called flag. -/
def dispatch_price_id (st : MonState) (item : String) : MonState × Bool :=
  match dictFind st.price_id item with
  | some entry =>
    if entry.item_called then (st, false)
    else
      (mark_state_dirty
        { st with price_id :=
            dictSet st.price_id item { entry with item_called := true } }, true)
  | none => (st, false)

/-- The decoded persistence file contents: each of the six fields may be
absent (the `data.get(key, default)` calls of persistence_load). -/
structure PersistData where
  price_id : Option (List (String × PriceIdentifiedItem)) := none
  known_items : Option (List (String × String)) := none
  charisma : Option Int := none
  xplevel : Option Int := none
  sucker : Option Bool := none
  tourist : Option Bool := none

/-- Outcome of opening and JSON-decoding the persistence file; `failed`
covers both OSError and json.JSONDecodeError. -/
inductive ReadResult where
  | ok (d : PersistData)
  | failed

/-- NHMonitor.persistence_load: the try/except returns with the state
untouched on a read or parse failure; otherwise each present field
replaces the in-memory default. -/
def persistence_load (st : MonState) (r : ReadResult) : MonState :=
  match r with
  | .failed => st
  | .ok d =>
    { st with
      price_id := d.price_id.getD st.price_id,
      known_items := d.known_items.getD st.known_items,
      charisma := d.charisma.getD st.charisma,
      xplevel := d.xplevel.getD st.xplevel,
      sucker := d.sucker.getD st.sucker,
      tourist :=
        match d.tourist with
        | some b => some b
        | none => st.tourist }

/-- The snapshot persistence_save serializes. -/
structure PersistSnapshot where
  price_id : List (String × PriceIdentifiedItem)
  known_items : List (String × String)
  charisma : Int
  xplevel : Int
  sucker : Bool
  tourist : Option Bool
deriving DecidableEq

/-- Outcome of the file write in persistence_save (`failed` is OSError). -/
inductive WriteResult where
  | ok
  | failed

/-- NHMonitor.persistence_save: returns the new state and the snapshot
written, if any. Nothing is written unless the dirty flag is set and a
persistence path is present; a write failure clears persistence_file
(keeping the dirty flag) instead of raising. -/
def persistence_save (st : MonState) (w : WriteResult) :
    MonState × Option PersistSnapshot :=
  if !st.dirty || st.persistence_file.isNone then (st, none)
  else
    match w with
    | .failed => ({ st with persistence_file := none }, none)
    | .ok =>
      ({ st with dirty := false },
       some ⟨st.price_id, st.known_items, st.charisma, st.xplevel,
             st.sucker, st.tourist⟩)

/-- The corner glyphs recognized by tmux.TmuxFrame.parse_curses_panes. -/
def cornerChars : List Char := ['┌', '┐', '└', '┘']

/-- A detected box `(r1, c1, r2, c2)`. -/
structure Box where
  r1 : Nat
  c1 : Nat
  r2 : Nat
  c2 : Nat
deriving DecidableEq

/-- The character of the padded frame at row `r`, column `c`. -/
def cellAt (padded : List String) (r c : Nat) : Char :=
  ((padded.getD r "").toList).getD c ' '

/-- The `for c2` scan of parse_curses_panes along the top row. The loop
body is an `if '─': continue / elif '┐': …` chain with no trailing break,
so every character other than `┐` is skipped (explicitly for `─`,
implicitly for anything else, e.g. a `┬` junction). At a `┐` whose
bottom-right cell is a matching `┘`: accept if the four border checks pass
and otherwise `continue` scanning; a `┐` without a matching `┘` breaks the
scan (the `break` after the corner test). The fuel starts at `width`. -/
def scan_c2 (padded : List String) (r1 c1 r2 width : Nat) :
    Nat → Nat → Option Box
  | 0, _ => none
  | fuel + 1, c2 =>
    if width ≤ c2 then none
    else
      let ch := cellAt padded r1 c2
      if ch = '─' then scan_c2 padded r1 c1 r2 width fuel (c2 + 1)
      else if ch = '┐' then
        if cellAt padded r2 c2 = '┘' then
          if ((List.range' (c1 + 1) (c2 - (c1 + 1))).all
                (fun c => ['─', '┬'].contains (cellAt padded r1 c))) &&
             ((List.range' (c1 + 1) (c2 - (c1 + 1))).all
                (fun c => ['─', '┴'].contains (cellAt padded r2 c))) &&
             ((List.range' (r1 + 1) (r2 - (r1 + 1))).all
                (fun r => ['│', '├'].contains (cellAt padded r c1))) &&
             ((List.range' (r1 + 1) (r2 - (r1 + 1))).all
                (fun r => ['│', '┤'].contains (cellAt padded r c2))) then
            some ⟨r1, c1, r2, c2⟩
          else scan_c2 padded r1 c1 r2 width fuel (c2 + 1)
        else none
      else scan_c2 padded r1 c1 r2 width fuel (c2 + 1)

/-- The `for r2` scan of parse_curses_panes down the left column. The loop
body is an `if '│': continue / elif '└': …` chain with no trailing break,
so every character other than `└` is skipped (explicitly for `│`,
implicitly for anything else, e.g. a `├` junction); at the first `└` the
rightward scan runs and then the loop breaks, whatever that scan found.
The fuel starts at `height`. -/
def scan_r2 (padded : List String) (r1 c1 height width : Nat) :
    Nat → Nat → Option Box
  | 0, _ => none
  | fuel + 1, r2 =>
    if height ≤ r2 then none
    else if cellAt padded r2 c1 = '│' then
      scan_r2 padded r1 c1 height width fuel (r2 + 1)
    else if cellAt padded r2 c1 = '└' then
      scan_c2 padded r1 c1 r2 width width (c1 + 1)
    else scan_r2 padded r1 c1 height width fuel (r2 + 1)

/-- The corner dictionary of parse_curses_panes, as its key list in
insertion (row-major) order. -/
def corner_positions (padded : List String) (height width : Nat) :
    List (Nat × Nat) :=
  (List.range height).flatMap (fun r =>
    (List.range width).filterMap (fun c =>
      if cornerChars.contains (cellAt padded r c) then some (r, c) else none))

/-- All boxes collected by parse_curses_panes: one scan per `┌` corner, in
corner order. -/
def collect_boxes (padded : List String) (height width : Nat) : List Box :=
  (corner_positions padded height width).filterMap (fun rc =>
    if cellAt padded rc.1 rc.2 = '┌' then
      scan_r2 padded rc.1 rc.2 height width height (rc.1 + 1)
    else none)

/-- The `is_nested` helper of parse_curses_panes: `inner` strictly inside
`outer` on all four bounds. -/
def box_is_nested (outer inner : Box) : Bool :=
  decide (outer.r1 < inner.r1) && decide (outer.r2 > inner.r2) &&
  decide (outer.c1 < inner.c1) && decide (outer.c2 > inner.c2)

/-- The nested-box elimination of parse_curses_panes: keep box `i` unless
some box at a different index `j` strictly contains it. -/
def filtered_boxes (boxes : List Box) : List Box :=
  (boxes.enum.filter (fun ib =>
    ! boxes.enum.any (fun jb => ib.1 != jb.1 && box_is_nested jb.2 ib.2))).map
    (·.2)

/-- Interior content of one box: the rows strictly between the borders,
cut to the columns strictly between the borders, right-stripped, with
trailing blank rows removed; `none` when the box yields no content or only
whitespace. -/
def box_content (padded : List String) (b : Box) : Option String :=
  let content_lines := (List.range' (b.r1 + 1) (b.r2 - (b.r1 + 1))).map (fun r =>
    pyRstrip (String.mk
      (((padded.getD r "").toList.drop (b.c1 + 1)).take (b.c2 - (b.c1 + 1)))))
  if content_lines.isEmpty then none
  else
    let trimmed := (content_lines.reverse.dropWhile (fun l => l == "")).reverse
    let content := String.intercalate "\n" trimmed
    if pyStrip content ≠ "" then some content else none

/-- tmux.TmuxFrame.parse_curses_panes (frames as plain strings): pad the
lines to a rectangle, collect all corner-matched, border-valid boxes,
drop the strictly nested ones and extract each remaining interior. -/
def parse_curses_panes (frame : String) : List String :=
  let lines := pySplitLines frame
  if lines.isEmpty = true ∨ lines.getD 0 "" = "" then []
  else
    let height := lines.length
    let width := (lines.map String.length).foldl max 0
    let padded := lines.map (fun l => pyLjust l width)
    (filtered_boxes (collect_boxes padded height width)).filterMap
      (box_content padded)

/-- Modelled from the spec: "round … to the nearest multiple of 5 … else
nearest multiple of 2" (ties resolved as Python's round does, half to
even). -/
def roundToNearestMultiple (m : Nat) (x : Frac) : Int :=
  (m : Int) * pyRound (x.div (Frac.ofInt m))

/-- Modelled from the spec (§4.4 `guessBaseCostSelling` and claim C6): the
pair (round_m(price·k), round_m(price·k·4/3)) with k = 3 when sucker else
2 and m = 5 when price ≥ 5 else 2, price 1 being the fixed special
case. -/
def guessBaseCostSellingSpec (price : Nat) (sucker : Bool) : List Int :=
  if price = 1 then [2, 2]
  else
    let k : Nat := if sucker then 3 else 2
    let m : Nat := if price ≥ 5 then 5 else 2
    [roundToNearestMultiple m (Frac.ofInt (price * k)),
     roundToNearestMultiple m ((Frac.ofInt (price * k * 4)).div (Frac.ofInt 3))]

/-- Descending ratio comparison (most-compressed first). -/
def ratio_desc (a b : String × String) : Bool := ratio_le b a

/-- Modelled from the spec: abbreviate_items as §4.5 step 3 describes the
fine-tuning order — most-compressed items first, i.e. ratio descending —
differing from the source only in the direction of that sort. -/
def abbreviate_items_spec_order (item_list0 : List String)
    (target_length : Nat) : String :=
  let item_list := erase_types item_list0
  let result := String.intercalate "/" item_list
  if result.length ≤ target_length then result
  else
    match dict_resize_loop item_list target_length result 5 0 with
    | .done r => r
    | .refine min_step items result2 =>
      let budget : Int := (target_length : Int) - (result2.length : Int)
      let sorted_pairs := pySorted ratio_desc (item_list.zip items)
      let final_list := fine_tune_go min_step sorted_pairs budget
      String.intercalate "/" (pySorted pyStrLe final_list)
    | .fallback stale =>
      let items := generic_resize_words item_list
      let max_wordlen := (items.flatMap id).foldl (fun m w => max m w.length) 0
      generic_resize_loop items target_length stale max_wordlen

/-- A frame holding two bordered, non-overlapping boxes: the first contains
"ab" padded with trailing blanks and a blank interior row, the second
contains "c d". -/
def twoBoxFrame : String :=
  "┌────┐  ┌───┐\n│ab  │  │c d│\n│    │  └───┘\n└────┘"

/-- A frame with one box drawn entirely inside another. -/
def nestedBoxFrame : String :=
  "┌──────┐\n│┌──┐  │\n││hi│  │\n│└──┘  │\n└──────┘"

/-- A single bordered box whose top and bottom borders carry T-junctions
(`┬`/`┴`) and whose interior holds a shared divider column. -/
def junctionBoxFrame : String :=
  "┌─┬─┐\n│a│b│\n└─┴─┘"

/-- Tracker states reachable from a fresh monitor through the operations
that mutate the game-knowledge maps: price identification, naming a
price-identified item, and the status-line updates. -/
inductive Reach : MonState → Prop where
  | init (aligned : Bool) (turnlimit max_abbrev : Nat)
      (pfile : Option String) :
      Reach (initState aligned turnlimit max_abbrev pfile)
  | identify {st st2 : MonState} {item : String} {price : Nat}
      {buying ok : Bool} :
      Reach st → identify_purchase st item price buying = some (st2, ok) →
      Reach st2
  | dispatch {st : MonState} (item : String) :
      Reach st → Reach (dispatch_price_id st item).1
  | stats {st : MonState} (rank : String) (charisma : Int) :
      Reach st → Reach (find_stats_status st rank charisma)
  | xp {st : MonState} (xplevel : Int) :
      Reach st → Reach (set_xplevel st xplevel)
  | suck {st : MonState} (b : Bool) :
      Reach st → Reach (set_sucker st b)

/-- C1: the claim requires `False` when only the lower selling-guess
candidate matches the category's table, and `True` only when additionally
the lower candidate matches no category's table. At price 4 / "boots" /
non-sucker, the candidates are (8, 10) and only 8 matches the boots table,
yet the code answers with the indeterminate value; at price 11 the
candidates are (20, 30), 30 matches the boots table and 20 matches the
scroll table, yet the code answers `True`. The cause is the source's test
`possible_prices[0] not in COST_TABLES`, an int membership test over
COST_TABLES' category-name keys that never matches, so the `False` branch
is unreachable. -/
theorem is_shk_greedy_ignores_lower_candidate :
    guess_base_cost_selling 4 false = [8, 10] ∧
    priceTableHas ((costTableFor "boots").getD []) 8 = true ∧
    priceTableHas ((costTableFor "boots").getD []) 10 = false ∧
    is_shk_greedy 4 "boots" (some false) = some none ∧
    guess_base_cost_selling 11 false = [20, 30] ∧
    priceTableHas ((costTableFor "boots").getD []) 30 = true ∧
    priceTableHas ((costTableFor "scroll").getD []) 20 = true ∧
    is_shk_greedy 11 "boots" (some false) = some (some true) ∧
    int_in_cost_tables 8 = false := by
  decide

/-- C2: a freshly initialized monitor has `tourist = False`, so the status
branch `if self.tourist is None` never fires and a status line with the
Tourist rank "Rambler" leaves the character unflagged (and the sucker flag
unset despite experience level 0 < 15); had the field been `None`, the
same parse would flag the tourist and auto-set the sucker flag, showing
the dead guard is the cause. -/
theorem tourist_never_flagged_from_status :
    TOURIST_LOW_LEVEL.contains "Rambler" = true ∧
    (initState false 0 60 none).tourist = some false ∧
    (find_stats_status (initState false 0 60 none) "Rambler" 10).tourist
      = some false ∧
    (find_stats_status (initState false 0 60 none) "Rambler" 10).sucker
      = false ∧
    (find_stats_status { initState false 0 60 none with tourist := none }
      "Rambler" 10).tourist = some true ∧
    (find_stats_status { initState false 0 60 none with tourist := none }
      "Rambler" 10).sucker = true := by
  decide

/-- C3 counterexample: "fruit juice" (the type-stripped identity of
"potion of fruit juice") has no ABBREV_DICT entry, and in dictionary step
1 it contributes the raw form "fruit juice" to the slash-joined candidate
string, not its step-0 form "FruitJuice" as the claim states. -/
theorem dict_pass_keeps_raw_form_counterexample :
    erase_types ["potion of extra healing", "potion of fruit juice"]
      = ["extra healing", "fruit juice"] ∧
    dictFind ABBREV_DICT "fruit juice" = none ∧
    dict_step_items ["extra healing", "fruit juice"] 1
      = ["ExtraHeal", "fruit juice"] ∧
    String.intercalate "/" (dict_step_items ["extra healing", "fruit juice"] 1)
      = "ExtraHeal/fruit juice" ∧
    step0_form "fruit juice" = "FruitJuice" ∧
    dict_step_form 1 "fruit juice" ≠ step0_form "fruit juice" := by
  decide

/-- C3 amended: in dictionary steps 1 through 4 every identity without an
abbreviation-table entry contributes its type-stripped form unchanged
(spaces and case preserved) to the candidate list that is slash-joined. -/
theorem dict_pass_keeps_missing_items (i : Nat) (item : String)
    (h1 : 1 ≤ i) (h4 : i ≤ 4) (h : dictFind ABBREV_DICT item = none) :
    dict_step_form i item = item := by
  have hi : i ≠ 0 := by omega
  simp [dict_step_form, hi, h]

/-- Witness for the amended C3: "fruit juice" at step 2. -/
theorem dict_pass_keeps_missing_items_witness :
    dictFind ABBREV_DICT "fruit juice" = none ∧
    dict_step_form 2 "fruit juice" = "fruit juice" :=
  ⟨by decide,
   dict_pass_keeps_missing_items 2 "fruit juice" (by decide) (by decide)
     (by decide)⟩

/-- C4: the fine-tuning phase sorts by `len(original)/len(short)`
ascending, so the *least* compressed item is offered its longer form
first. For the two potions below at budget 21 the code (ascending order)
restores "gain energy" and leaves "MonDetect", while the order the claim
and the source comment describe (most-compressed first, descending) would
restore "monster detection" and leave "GainEn" — a different result. -/
theorem abbreviate_items_expands_least_compressed_first :
    abbreviate_items ["potion of monster detection", "potion of gain energy"] 21
      = "GainEnergy/MonDetect" ∧
    abbreviate_items_spec_order
      ["potion of monster detection", "potion of gain energy"] 21
      = "GainEn/MonstDetect" ∧
    ("GainEnergy/MonDetect" : String) ≠ "GainEn/MonstDetect" := by
  decide

/-- C5: on a first turn parse after being unsynced (turn unknown) with a
non-zero turn budget, the unaligned trigger is `turn + budget` and the
aligned trigger is the least multiple of the budget strictly greater than
the current turn; in particular 733 with budget 500 gives 1000 aligned and
1233 unaligned. -/
theorem set_turn_stop_on_turn_correct (st : MonState) (turn : Nat)
    (hsync : st.turn = none) (hL : 0 < st.turnlimit) :
    (st.aligned_turnlimit = false →
      set_turn_stop_on_turn st turn = turn + st.turnlimit) ∧
    (st.aligned_turnlimit = true →
      st.turnlimit ∣ set_turn_stop_on_turn st turn ∧
      turn < set_turn_stop_on_turn st turn ∧
      ∀ m : Nat, st.turnlimit ∣ m → turn < m →
        set_turn_stop_on_turn st turn ≤ m) ∧
    set_turn_stop_on_turn (initState true 500 60 none) 733 = 1000 ∧
    set_turn_stop_on_turn (initState false 500 60 none) 733 = 1233 := by
  have hL0 : st.turnlimit ≠ 0 := Nat.pos_iff_ne_zero.mp hL
  refine ⟨?_, ?_, by decide, by decide⟩
  · intro ha
    simp [set_turn_stop_on_turn, hsync, hL0, ha]
  · intro ha
    have heq : set_turn_stop_on_turn st turn
        = st.turnlimit * (turn / st.turnlimit + 1) := by
      simp [set_turn_stop_on_turn, hsync, hL0, ha]
    rw [heq]
    refine ⟨⟨turn / st.turnlimit + 1, rfl⟩, ?_, ?_⟩
    · have hmod := Nat.div_add_mod turn st.turnlimit
      have hlt : turn % st.turnlimit < st.turnlimit := Nat.mod_lt _ hL
      rw [Nat.mul_succ]
      omega
    · rintro m ⟨k, rfl⟩ hm
      have hk : turn / st.turnlimit < k := by
        rw [Nat.div_lt_iff_lt_mul hL, Nat.mul_comm k st.turnlimit]
        exact hm
      exact Nat.mul_le_mul_left _ hk

/-- Witness for C5: the concrete 733/500 instances, read off by applying
the theorem at the two initial states. -/
theorem set_turn_stop_on_turn_correct_witness :
    set_turn_stop_on_turn (initState true 500 60 none) 733 = 1000 ∧
    set_turn_stop_on_turn (initState false 500 60 none) 733 = 1233 :=
  ⟨(set_turn_stop_on_turn_correct (initState true 500 60 none) 733 rfl
      (by decide)).2.2.1,
   (set_turn_stop_on_turn_correct (initState false 500 60 none) 733 rfl
      (by decide)).2.2.2⟩

/-- C6: `guess_base_cost_selling 1 sucker = [2, 2]` for both sucker values,
and for every larger price the result is the pair of nearest-multiple
roundings the claim describes (k = 3 when sucker else 2; m = 5 when
price ≥ 5 else 2; ties as Python rounds, half to even). -/
theorem guess_selling_matches_spec (price : Nat) (sucker : Bool) :
    guess_base_cost_selling 1 sucker = [2, 2] ∧
    (1 < price →
      guess_base_cost_selling price sucker
        = guessBaseCostSellingSpec price sucker) := by
  constructor
  · simp [guess_base_cost_selling]
  · intro h
    have h1 : price ≠ 1 := by omega
    by_cases hs : sucker <;> by_cases hp : price ≥ 5 <;>
      simp [guess_base_cost_selling, guessBaseCostSellingSpec,
        roundToNearestMultiple, Frac.div, Frac.ofInt, h1, hs, hp]

/-- Witness for C6: price 7 as a sucker. -/
theorem guess_selling_matches_spec_witness :
    guess_base_cost_selling 1 true = [2, 2] ∧
    guess_base_cost_selling 7 true = guessBaseCostSellingSpec 7 true :=
  ⟨(guess_selling_matches_spec 1 true).1,
   (guess_selling_matches_spec 7 true).2 (by decide)⟩

/-- C9: persistence_load on a failed read (missing or malformed file)
returns the state untouched, leaving the in-memory defaults; and
persistence_save writes nothing unless the dirty flag is set, while a
write failure writes nothing, clears the persistence path, and — since no
operation restores the path — every later save against a path-less state
is a no-op, so persistence stays disabled for the rest of the run. -/
theorem persistence_error_handling :
    (∀ st : MonState, persistence_load st .failed = st) ∧
    (∀ (st : MonState) (w : WriteResult), st.dirty = false →
      persistence_save st w = (st, none)) ∧
    (∀ st : MonState, st.dirty = true → st.persistence_file ≠ none →
      (persistence_save st .failed).2 = none ∧
      (persistence_save st .failed).1.persistence_file = none) ∧
    (∀ (st : MonState) (w : WriteResult), st.persistence_file = none →
      persistence_save st w = (st, none)) := by
  refine ⟨fun st => rfl, ?_, ?_, ?_⟩
  · intro st w hd
    simp [persistence_save, hd]
  · intro st hd hf
    have hn : st.persistence_file.isNone = false := by
      cases hpf : st.persistence_file
      · exact absurd hpf hf
      · simp
    simp [persistence_save, hd, hn]
  · intro st w hf
    simp [persistence_save, hf]

/-- Witness for C9: a concrete state with a path; load failure is the
identity, a clean state is never written, a dirty write failure clears the
path, and the resulting path-less state never writes again. -/
theorem persistence_error_handling_witness :
    persistence_load (initState false 0 60 (some "facts.json")) .failed
      = initState false 0 60 (some "facts.json") ∧
    persistence_save (initState false 0 60 (some "facts.json")) .ok
      = (initState false 0 60 (some "facts.json"), none) ∧
    (persistence_save
        { initState false 0 60 (some "facts.json") with dirty := true }
        .failed).1.persistence_file = none ∧
    persistence_save
        { initState false 0 60 (some "facts.json") with
            dirty := true, persistence_file := none } .ok
      = ({ initState false 0 60 (some "facts.json") with
            dirty := true, persistence_file := none }, none) :=
  ⟨persistence_error_handling.1 _,
   persistence_error_handling.2.1 _ _ rfl,
   (persistence_error_handling.2.2.1 _ rfl (by decide)).2,
   persistence_error_handling.2.2.2 _ _ rfl⟩

/-- C10: any frame whose text is empty or whose first line (before the
first newline) is empty parses to no panes, whatever boxes later lines
hold. -/
theorem parse_panes_empty_first_line (frame : String)
    (h : (pySplitLines frame).getD 0 "" = "") :
    parse_curses_panes frame = [] := by
  unfold parse_curses_panes
  simp only [List.getD, List.get?_eq_getElem?] at h
  simp [h]

/-- Witness for C10: a frame starting with an empty line followed by a
complete, otherwise-valid box parses to nothing, while the same box
without the leading newline parses to its interior. -/
theorem parse_panes_empty_first_line_witness :
    (pySplitLines "\n┌─┐\n│a│\n└─┘").getD 0 "" = "" ∧
    parse_curses_panes "\n┌─┐\n│a│\n└─┘" = [] ∧
    parse_curses_panes "┌─┐\n│a│\n└─┘" = ["a"] :=
  ⟨by decide, parse_panes_empty_first_line _ (by decide), by decide⟩

/-- C8: the two-box frame parses to its two interiors, right-trimmed and
with the trailing blank row dropped, in top-left reading order; a box with
`┬`/`┴` junctions in its borders is still collected (the scans skip past
characters their `if`/`elif` chains do not match); a frame with a box
drawn inside another returns only the outer interior; and, in general,
every collected box strictly contained within another collected box's
bounds is discarded by the nested-box elimination. -/
theorem parse_panes_two_boxes_and_nested_discard :
    parse_curses_panes twoBoxFrame = ["ab", "c d"] ∧
    parse_curses_panes junctionBoxFrame = ["a│b"] ∧
    parse_curses_panes nestedBoxFrame = ["┌──┐\n│hi│\n└──┘"] ∧
    ∀ (boxes : List Box), ∀ p ∈ filtered_boxes boxes, ∀ q ∈ boxes, q ≠ p →
      box_is_nested q p = false := by
  refine ⟨by decide, by decide, by decide, ?_⟩
  intro boxes p hp q hq hne
  simp only [filtered_boxes, List.mem_map, List.mem_filter] at hp
  obtain ⟨⟨i, p2⟩, ⟨hmem, hnone⟩, hp2⟩ := hp
  simp only at hp2
  subst hp2
  obtain ⟨j, hj⟩ := List.get?_of_mem hq
  have hij : i ≠ j := by
    intro hijeq
    have hgi : boxes.get? i = some p2 := List.mem_enum_iff_get?.mp hmem
    rw [hijeq, hj] at hgi
    exact hne (Option.some.inj hgi)
  have hjq : (j, q) ∈ boxes.enum := List.mem_enum_iff_get?.mpr hj
  simp only [Bool.not_eq_true', List.any_eq_false] at hnone
  have hfalse := hnone (j, q) hjq
  cases hb : box_is_nested q p2
  · rfl
  · exact absurd (by simp [hb, bne_iff_ne, hij]) hfalse

/-- Witness for C8's general conjunct: with an outer box and a box strictly
inside it, the outer box survives the filtering and is not contained in
the inner one. -/
theorem parse_panes_two_boxes_and_nested_discard_witness :
    Box.mk 0 0 4 7 ∈ filtered_boxes [Box.mk 0 0 4 7, Box.mk 1 1 3 4] ∧
    box_is_nested (Box.mk 1 1 3 4) (Box.mk 0 0 4 7) = false :=
  ⟨by decide,
   parse_panes_two_boxes_and_nested_discard.2.2.2
     [Box.mk 0 0 4 7, Box.mk 1 1 3 4] (Box.mk 0 0 4 7) (by decide)
     (Box.mk 1 1 3 4) (by decide) (by decide)⟩

/-- An element of `dictSet d k v` is either a binding carrying `v` or an
original binding of `d`. -/
theorem dictSet_mem_cases {α : Type} {d : List (String × α)} {k : String}
    {v : α} {e : String × α} (he : e ∈ dictSet d k v) :
    e.2 = v ∨ e ∈ d := by
  unfold dictSet at he
  split at he
  · rcases List.mem_map.mp he with ⟨x, hx, hfx⟩
    by_cases hk : (x.fst == k) = true
    · rw [if_pos hk] at hfx
      left
      rw [← hfx]
    · rw [if_neg hk] at hfx
      right
      rw [← hfx]
      exact hx
  · rcases List.mem_append.mp he with hd | hs
    · right; exact hd
    · left
      rcases List.mem_singleton.mp hs with rfl
      rfl

/-- A successful dict lookup returns an actual binding. -/
theorem dictFind_mem {α : Type} {d : List (String × α)} {k : String} {v : α}
    (h : dictFind d k = some v) : (k, v) ∈ d := by
  unfold dictFind at h
  cases hf : d.find? (fun kv => kv.fst == k) with
  | none => rw [hf] at h; simp at h
  | some kv =>
    rw [hf] at h
    simp only [Option.map_some', Option.some.injEq] at h
    have hmem := List.mem_of_find?_eq_some hf
    have hp := List.find?_some hf
    have hk : kv.fst = k := by simpa using hp
    have : (k, v) = kv := by
      cases kv
      simp only at h hk
      rw [h, hk]
    rw [this]
    exact hmem

/-- Every record of the price_id map after learn_price_id either carries
exactly the new candidate list or was already present. -/
theorem learn_price_id_mem_cases (st : MonState) (cands : List String)
    (item app : String) (e : String × PriceIdentifiedItem)
    (he : e ∈ (learn_price_id st cands item app).price_id) :
    e.2.candidates = cands ∨ e ∈ st.price_id := by
  unfold learn_price_id at he
  by_cases hlen : cands.length = 1 <;>
    simp only [hlen, if_true, if_false, ite_true, ite_false,
      mark_state_dirty] at he <;>
  · rcases hfind : dictFind st.price_id item with _ | old <;>
      rw [hfind] at he <;> simp only at he
    · rcases dictSet_mem_cases he with hv | hold
      · left; rw [hv]
      · right; exact hold
    · split at he
      · rcases dictSet_mem_cases he with hv | hold
        · left; rw [hv]
        · right; exact hold
      · right; exact he

/-- set_charisma does not touch the price_id map. -/
theorem set_charisma_price_id (st : MonState) (c : Int) :
    (set_charisma st c).price_id = st.price_id := by
  unfold set_charisma mark_state_dirty
  split <;> rfl

/-- set_xplevel does not touch the price_id map. -/
theorem set_xplevel_price_id (st : MonState) (x : Int) :
    (set_xplevel st x).price_id = st.price_id := by
  unfold set_xplevel mark_state_dirty
  split <;> rfl

/-- set_tourist does not touch the price_id map. -/
theorem set_tourist_price_id (st : MonState) (b : Bool) :
    (set_tourist st b).price_id = st.price_id := by
  unfold set_tourist mark_state_dirty
  split <;> rfl

/-- set_sucker does not touch the price_id map. -/
theorem set_sucker_price_id (st : MonState) (b : Bool) :
    (set_sucker st b).price_id = st.price_id := by
  unfold set_sucker mark_state_dirty
  split <;> split <;> rfl

/-- check_sucker does not touch the price_id map. -/
theorem check_sucker_price_id (st : MonState) :
    (check_sucker st).price_id = st.price_id := by
  unfold check_sucker
  split
  · exact set_sucker_price_id st _
  · rfl

/-- The status-line update does not touch the price_id map. -/
theorem find_stats_status_price_id (st : MonState) (rank : String)
    (charisma : Int) :
    (find_stats_status st rank charisma).price_id = st.price_id := by
  unfold find_stats_status
  rw [check_sucker_price_id]
  split
  · split
    · rw [set_tourist_price_id, set_charisma_price_id]
    · rw [set_charisma_price_id]
  · rw [set_charisma_price_id]

/-- C7: in every tracker state reachable through the monitor operations,
every stored price-identification record has a non-empty candidates list;
and whenever price deduction minus the already-known identities comes out
empty, identify_purchase reports failure and leaves the state untouched,
creating or updating no record. -/
theorem price_id_candidates_never_empty :
    (∀ st : MonState, Reach st → ∀ e ∈ st.price_id, e.2.candidates ≠ []) ∧
    (∀ (st : MonState) (item : String) (price : Nat) (buying : Bool)
        (kind appearance : String) (cs : List String),
      lookup_item item = some (kind, appearance) →
      find_price_candidates price kind st.charisma (some st.sucker) buying
        = some cs →
      cs.filter (fun x => (dictFind st.known_items x).isNone) = [] →
      identify_purchase st item price buying = some (st, false)) := by
  constructor
  · intro st hr
    induction hr with
    | init a t m p =>
      intro e he
      simp [initState] at he
    | @identify st0 st2 item price buying ok hr heq ih =>
      intro e he
      rcases hli : lookup_item item with _ | ⟨kind, app⟩
      · simp only [identify_purchase, hli, Option.some.injEq,
          Prod.mk.injEq] at heq
        rw [← heq.1] at he
        exact ih e he
      · rcases hfp : find_price_candidates price kind st0.charisma
            (some st0.sucker) buying with _ | cs
        · simp only [identify_purchase, hli, hfp] at heq
          exact absurd heq (by simp)
        · simp only [identify_purchase, hli, hfp] at heq
          split at heq <;>
            simp only [Option.some.injEq, Prod.mk.injEq] at heq
          · rw [← heq.1] at he
            exact ih e he
          · rename_i hne
            rw [← heq.1] at he
            rcases learn_price_id_mem_cases st0 _ item app e he with hv | hold
            · rw [hv]
              intro hnil
              rw [hnil] at hne
              simp at hne
            · exact ih e hold
    | @dispatch st0 item hr ih =>
      intro e he
      unfold dispatch_price_id at he
      rcases hfind : dictFind st0.price_id item with _ | entry <;>
        rw [hfind] at he
      · exact ih e he
      · simp only at he
        split at he
        · exact ih e he
        · simp only [mark_state_dirty] at he
          rcases dictSet_mem_cases he with hv | hold
          · rw [hv]
            exact ih (item, entry) (dictFind_mem hfind)
          · exact ih e hold
    | @stats st0 rank cha hr ih =>
      intro e he
      rw [find_stats_status_price_id] at he
      exact ih e he
    | @xp st0 x hr ih =>
      intro e he
      rw [set_xplevel_price_id] at he
      exact ih e he
    | @suck st0 b hr ih =>
      intro e he
      rw [set_sucker_price_id] at he
      exact ih e he
  · intro st item price buying kind app cs hl hf hfilter
    simp only [identify_purchase, hl, hf, hfilter, List.isEmpty_nil, if_true,
      List.filter_nil, ite_true]

/-- Witness for C7: the initial state is reachable and satisfies the
invariant, and a priced "mud boots" whose deduction yields no candidates
leaves the state untouched with a failure result. -/
theorem price_id_candidates_never_empty_witness :
    (∀ e ∈ (initState false 0 60 none).price_id, e.2.candidates ≠ []) ∧
    identify_purchase (initState false 0 60 none) "mud boots" 3 true
      = some (initState false 0 60 none, false) :=
  ⟨price_id_candidates_never_empty.1 _ (Reach.init false 0 60 none),
   price_id_candidates_never_empty.2 (initState false 0 60 none) "mud boots"
     3 true "boots" "mud" [] (by decide) (by decide) (by decide)⟩
